import Mathlib

/-!
# Verification of the Yellow session client and deposit builder

Shallow embedding of the off-chain session protocol client
(`YellowProvider` in the repository: session state machine, WebSocket
lifecycle handlers, challenge/response authentication handshake, inbound
push-message handler) and of the bootstrap transaction builder
(`buildYellowDepositTx`).

Modelling conventions:
* JS strings that may be `undefined` at runtime are modelled as
  `Option String` (`none` = `undefined`/`null`).
* JS truthiness of a string value (`x || y`) is modelled explicitly:
  `none` and `some ""` are falsy.
* The WebSocket transport is modelled by a list of sockets, each with a
  `closed` flag (set by a `close()` call or a close event) and an
  `authPending` flag (an unsettled authentication promise, with its
  30-second timer armed, tied to that socket).  Handlers are attached to
  a specific socket, so lifecycle events of stale sockets still run
  their handlers, exactly as in the source.
-/

namespace Omnistrat

/-- The five session statuses of `YellowSessionStatus`. -/
inductive YellowSessionStatus where
  | disconnected
  | connecting
  | authenticating
  | active
  | error
deriving DecidableEq, Repr

/-- `YellowSessionState` from the source.  `balance` is `Option String`
because the untyped runtime can store `undefined` there (the message
handler assigns `message.params.balance` without validation). -/
structure YellowSessionState where
  status : YellowSessionStatus
  channelId : Option String
  balance : Option String
  tokenSymbol : String
  tokenDecimals : Nat
  sessError : Option String
deriving DecidableEq, Repr

/-- `initialState` from the source: disconnected, no channel, balance "0",
USDC/6, no error. -/
def initialState : YellowSessionState :=
  { status := .disconnected
    channelId := none
    balance := some "0"
    tokenSymbol := "USDC"
    tokenDecimals := 6
    sessError := none }

/-- JS `x || d` for an optional string `x` and default `d`:
`undefined` and the empty string are falsy. -/
def jsOrD (d : String) (x : Option String) : String :=
  match x with
  | some s => if s = "" then d else s
  | none => d

/-- JS `x || null` for an optional string `x`:
`undefined` and the empty string collapse to `null`. -/
def jsOrNull (x : Option String) : Option String :=
  match x with
  | some s => if s = "" then none else some s
  | none => none

/-- The `params` object of an inbound push frame; each field is absent
(`none`, i.e. JS `undefined`) when the JSON body does not carry it. -/
structure PushParams where
  pBalance : Option String
  pChannelId : Option String
deriving DecidableEq, Repr

/-- The `result` object of an auth response frame. -/
structure AuthResult where
  challenge : Option String
  authenticated : Option Bool
  rChannelId : Option String
  rBalance : Option String
deriving DecidableEq, Repr, Inhabited

/-- A parsed inbound JSON frame: the fields the client reads.
`errMsg` models `response.error?.message`. -/
structure Frame where
  method : Option String
  params : Option PushParams
  rpcId : Option Nat
  result : Option AuthResult
  errMsg : Option String
deriving DecidableEq, Repr

/-- A raw inbound message: either text that `JSON.parse` rejects (the
thrown parse error message is carried as data) or a parsed frame. -/
inductive Raw where
  | invalid (emsg : String)
  | ok (f : Frame)
deriving DecidableEq, Repr

/-- `handleMessage` from the source, as a pure state transformer.
Non-JSON input is caught and dropped.  For the three recognized push
methods the handler assigns fields of `message.params` with **no
validation**: a present-but-incomplete `params` object stores
`undefined` (`none`) into the session.  (When `params` itself is absent
the field access raises a `TypeError` while the state updater runs; the
frame then has no effect on the committed state, modelled as a drop.) -/
def handleMessage (r : Raw) (prev : YellowSessionState) : YellowSessionState :=
  match r with
  | .invalid _ => prev
  | .ok f =>
    if f.method = some "balance_update" then
      match f.params with
      | some p => { prev with balance := p.pBalance }
      | none => prev
    else if f.method = some "channel_opened" then
      match f.params with
      | some p => { prev with channelId := p.pChannelId, balance := p.pBalance }
      | none => prev
    else if f.method = some "channel_closed" then
      { prev with channelId := none, balance := some "0" }
    else prev

/-- One WebSocket, as the client sees it: whether it has been closed
(locally via `close()` or by a close event), and whether an unsettled
authentication handshake (with its 30-second timer armed) is attached
to it. -/
structure Sock where
  closed : Bool
  authPending : Bool
deriving DecidableEq, Repr

/-- Default socket used for out-of-range reads: closed, no handshake. -/
def noSock : Sock := { closed := true, authPending := false }

/-- The mutable world of the provider: the React session state, `wsRef`
(socket identified by its creation index), `reconnectTimeoutRef`
(never set anywhere in the source, only cleared), and every socket
ever created. -/
structure World where
  session : YellowSessionState
  wsRef : Option Nat
  reconnectTimer : Bool
  socks : List Sock
deriving DecidableEq, Repr

/-- The initial world: initial session, no socket, no timer. -/
def initWorld : World :=
  { session := initialState, wsRef := none, reconnectTimer := false, socks := [] }

/-- Mark socket `i` closed (models `ws.close()` or the socket of a close event). -/
def closeSock : List Sock → Nat → List Sock
  | [], _ => []
  | s :: t, 0 => { s with closed := true } :: t
  | s :: t, n + 1 => s :: closeSock t n

/-- Clear the pending-handshake flag of socket `i` (the promise settled:
`clearTimeout` has run or the timer fired, and the settled promise
ignores later settlement attempts). -/
def settleSock : List Sock → Nat → List Sock
  | [], _ => []
  | s :: t, 0 => { s with authPending := false } :: t
  | s :: t, n + 1 => s :: settleSock t n

/-- Arm the handshake (request sent, 30-second timer started) on socket `i`. -/
def armSock : List Sock → Nat → List Sock
  | [], _ => []
  | s :: t, 0 => { s with authPending := true } :: t
  | s :: t, n + 1 => s :: armSock t n

/-- `response.result?.challenge` is truthy: a nonempty challenge string. -/
def frameChallenge (f : Frame) : Option String :=
  match f.result with
  | some r =>
    match r.challenge with
    | some c => if c = "" then none else some c
    | none => none
  | none => none

/-- `response.result?.authenticated` is truthy. -/
def authOk (res : Option AuthResult) : Bool :=
  match res with
  | some r => r.authenticated = some true
  | none => false

/-- Whether an unsettled handshake is attached to socket `i`. -/
def authPendingAt (w : World) (i : Nat) : Bool :=
  (w.socks.getD i noSock).authPending

/-- Events driving the provider: the two public calls and the per-socket
transport/timer callbacks.  `connectCall pre` carries the precondition
`address && isSupported` evaluated at call time. -/
inductive Ev where
  | connectCall (pre : Bool)
  | disconnectCall
  | openEv (i : Nat)
  | msgEv (i : Nat) (r : Raw)
  | errorEv (i : Nat)
  | closeEv (i : Nat)
  | timeoutEv (i : Nat)
deriving DecidableEq, Repr

/-- Handshake failure settlement: the rejected promise is caught in
`ws.onopen`, which records the error on the session and closes the
socket the handshake ran over. -/
def settleFail (w : World) (i : Nat) (s1 : YellowSessionState) (reason : String) : World :=
  { w with
    session := { s1 with status := .error, sessError := some reason }
    socks := closeSock (settleSock w.socks i) i }

/-- Handshake success settlement (`auth_verify` response with truthy
`authenticated`): adopt `channelId || null` and `balance || '0'` from the
result and go active; the socket stays open. -/
def settleOk (w : World) (i : Nat) (s1 : YellowSessionState) (r : AuthResult) : World :=
  { w with
    session := { s1 with
      status := .active
      channelId := jsOrNull r.rChannelId
      balance := some (jsOrD "0" r.rBalance) }
    socks := settleSock w.socks i }

/-- The `authHandler` message listener of the in-flight handshake on
socket `i`, applied after `handleMessage` (both listeners receive every
message; `onmessage` was registered first).  `sign` is the wallet
signing capability (`signMessageAsync`): `.error e` models a rejection
or thrown error with message `e`. -/
def authStep (sign : String → Except String String) (w : World) (i : Nat)
    (s1 : YellowSessionState) (r : Raw) : World :=
  match r with
  | .invalid emsg => settleFail w i s1 emsg
  | .ok f =>
    match frameChallenge f with
    | some c =>
      if f.rpcId = some 1 then
        match sign c with
        | .ok _sig => { w with session := s1 }
        | .error e => settleFail w i s1 e
      else if f.rpcId = some 2 then
        if authOk f.result then settleOk w i s1 (f.result.getD default)
        else settleFail w i s1 (jsOrD "Authentication rejected" f.errMsg)
      else { w with session := s1 }
    | none =>
      if f.rpcId = some 2 then
        if authOk f.result then settleOk w i s1 (f.result.getD default)
        else settleFail w i s1 (jsOrD "Authentication rejected" f.errMsg)
      else { w with session := s1 }

/-- One step of the provider.  Each branch transcribes the corresponding
handler of the source:
* `connectCall false`: precondition failure — error status recorded,
  nothing else touched (no close, no ref change).
* `connectCall true`: closes the referenced socket if any (without
  clearing the ref first), sets `connecting`/clears the error, creates a
  fresh socket and references it.
* `disconnectCall`: closes the referenced socket, clears both refs and
  the timer, resets the session to `initialState` unconditionally.
* `openEv i`: the `onopen` of socket `i` — status `authenticating`, sends
  `auth_challenge` and arms the handshake (30 s timer) on socket `i`.
* `msgEv i r`: the message event of socket `i` — `handleMessage` runs, then
  the `authHandler` if a handshake is pending on `i`.
* `errorEv i`: the `onerror` of socket `i` — error status recorded; the
  socket, the ref and the timer are untouched.
* `closeEv i`: the `onclose` of socket `i` — the ref is nulled
  unconditionally, and the session resets to `initialState` unless it is
  already `error` (sticky error).  The handshake timer, if armed, is
  **not** cancelled.
* `timeoutEv i`: the 30-second handshake timer of socket `i` fires (it
  is cleared only by `authHandler` settlement, not by `disconnect`). -/
def step (sign : String → Except String String) (w : World) (e : Ev) : World :=
  match e with
  | .connectCall pre =>
    if pre then
      let socks1 :=
        match w.wsRef with
        | some i => closeSock w.socks i
        | none => w.socks
      { session := { w.session with status := .connecting, sessError := none }
        wsRef := some socks1.length
        reconnectTimer := w.reconnectTimer
        socks := socks1 ++ [{ closed := false, authPending := false }] }
    else
      { w with session := { w.session with
          status := .error
          sessError := some "Wallet not connected or chain not supported" } }
  | .disconnectCall =>
    { session := initialState
      wsRef := none
      reconnectTimer := false
      socks :=
        match w.wsRef with
        | some i => closeSock w.socks i
        | none => w.socks }
  | .openEv i =>
    { w with
      session := { w.session with status := .authenticating }
      socks := armSock w.socks i }
  | .msgEv i r =>
    let s1 := handleMessage r w.session
    if authPendingAt w i then authStep sign w i s1 r
    else { w with session := s1 }
  | .errorEv _ =>
    { w with session := { w.session with
        status := .error, sessError := some "WebSocket connection error" } }
  | .closeEv i =>
    { w with
      wsRef := none
      socks := closeSock w.socks i
      session := if w.session.status = .error then w.session else initialState }
  | .timeoutEv i =>
    if authPendingAt w i then
      settleFail w i w.session "Authentication timeout"
    else w

/-- Run a trace of events from a world. -/
def run (sign : String → Except String String) (w : World) (es : List Ev) : World :=
  es.foldl (step sign) w

/-- Number of connections currently open (created and not closed). -/
def openCount (w : World) : Nat :=
  (w.socks.filter (fun s => !s.closed)).length

/-- A signer that always succeeds, for concrete traces. -/
def okSign : String → Except String String := fun c => .ok ("sig:" ++ c)

/-! ## The bootstrap transaction builder (`buildYellowDepositTx`) -/

/-- `YELLOW_SUPPORTED_CHAINS` from the source. -/
def yellowSupportedChains : List (Nat × String) :=
  [(1, "Ethereum"), (42161, "Arbitrum"), (8453, "Base")]

/-- `YELLOW_CONTRACTS.custody` from the source. -/
def custodyAddress : String := "0x490fb189DdE3a01B00be9BA5F41e3447FbC838b6"

/-- `USDC_ADDRESSES` from the source. -/
def usdcAddress (chainId : Nat) : Option String :=
  if chainId = 1 then some "0xA0b86991c6218b36c1d19D4a2e9Eb0cE3606eB48"
  else if chainId = 42161 then some "0xaf88d065e77c8cC2239327C5EDb3A432268e5831"
  else if chainId = 8453 then some "0x833589fCD6eDb6E08f4c7C32D4f71b54bdA02913"
  else none

/-- `maxUint256` from viem. -/
def maxUint256 : Nat := 2 ^ 256 - 1

/-- `BigInt(amount)` on a plain decimal string: the parsed value, or
`none` when the conversion throws a `SyntaxError` (non-digit input).
Other textual forms `BigInt` accepts (hex prefixes, surrounding
whitespace) do not occur in the payloads this tool receives and are out
of scope. -/
def bigIntDec? (s : String) : Option Nat :=
  if s.data ≠ [] ∧ s.data.all (fun c => c.isDigit) then
    some (s.data.foldl (fun n c => n * 10 + (c.toNat - 48)) 0)
  else none

/-- Lowercase hex digits of a natural number. -/
def hexDigits (n : Nat) : String := (Nat.toDigits 16 n).asString

/-- Pad a string on the left with `c` to length `len`. -/
def padLeft (s : String) (len : Nat) (c : Char) : String :=
  String.mk (List.replicate (len - s.length) c) ++ s

/-- A `uint256` ABI word: 64 lowercase hex characters. -/
def encodeUint256 (n : Nat) : String := padLeft (hexDigits n) 64 '0'

/-- An `address` ABI word: the 40 hex characters of the address,
lowercased, left-padded to 64. -/
def encodeAddress (a : String) : String :=
  let body := if a.data.take 2 = ['0', 'x'] then a.data.drop 2 else a.data
  padLeft (String.mk (body.map Char.toLower)) 64 '0'

/-- 4-byte selector of `approve(address,uint256)`. -/
def selApprove : String := "0x095ea7b3"

/-- 4-byte selector of `deposit(address,uint256)`. -/
def selDeposit : String := "0x47e7ef24"

/-- 4-byte selector of `withdraw(address,uint256)`. -/
def selWithdraw : String := "0xf3fef3a3"

/-- `encodeFunctionData` for `approve(spender, amount)`. -/
def encodeApproveCall (spender : String) (amount : Nat) : String :=
  selApprove ++ encodeAddress spender ++ encodeUint256 amount

/-- `encodeFunctionData` for `deposit(token, amount)`. -/
def encodeDepositCall (token : String) (amount : Nat) : String :=
  selDeposit ++ encodeAddress token ++ encodeUint256 amount

/-- The trailing-zero strip performed by the regex replace inside
`formatAmount`: removes a trailing run of zeros together with a dot
directly before it (the dot only when at least one zero was removed). -/
def stripTrailing (s : String) : String :=
  let r := s.data.reverse
  if r.takeWhile (fun c => c = '0') = [] then s
  else
    let r2 := r.dropWhile (fun c => c = '0')
    let r3 := match r2 with
      | '.' :: rest => rest
      | _ => r2
    String.mk r3.reverse

/-- `formatAmount` from the source, on an already-converted BigInt value:
integer part, dot, fractional part padded to `decimals` digits and cut
to 6, then trailing zeros (and the dot) stripped; empty result becomes
"0". -/
def formatAmount (value : Nat) (decimals : Nat) : String :=
  let divisor := 10 ^ decimals
  let integerPart := value / divisor
  let fractionalPart := value % divisor
  let fractionalStr := String.mk ((padLeft (toString fractionalPart) decimals '0').data.take 6)
  let s := stripTrailing (toString integerPart ++ "." ++ fractionalStr)
  if s = "" then "0" else s

/-- One element of the `transactions` array returned by the builder. -/
structure TxStep where
  step : Nat
  name : String
  description : String
  toAddr : String
  data : String
  value : String
deriving DecidableEq, Repr

/-- Result of the builder: the JSON object with `success: false` and an
error, or `success: true` with the payload fields the claims concern. -/
inductive DepositResult where
  | failure (error : String)
  | success (chainId : Nat) (chainName : String) (rawAmount : String)
      (formattedAmount : String) (transactions : List TxStep)
deriving DecidableEq, Repr

/-- The transactions list of a builder result (empty on failure). -/
def DepositResult.txs : DepositResult → List TxStep
  | .failure _ => []
  | .success _ _ _ _ t => t

/-- Whether the builder succeeded. -/
def DepositResult.isSuccess : DepositResult → Bool
  | .failure _ => false
  | .success _ _ _ _ _ => true

/-- `token = tokenAddress || USDC_ADDRESSES[chainId]`: JS-truthy explicit
parameter, else the per-chain default. -/
def resolveToken (chainId : Nat) (tokenAddress : Option String) : Option String :=
  match tokenAddress with
  | some t => if t = "" then usdcAddress chainId else some t
  | none => usdcAddress chainId

/-- `buildYellowDepositTx.execute` from the source: validate the chain,
resolve the token, encode `approve(custody, maxUint256)` and
`deposit(token, amount)`, and return the two tagged steps in order.
`BigInt(amount)` failing to convert, or the amount exceeding the
`uint256` range inside `encodeFunctionData`, throws into the
surrounding catch and yields a failure result. -/
def buildYellowDepositTx (chainId : Nat) (amount : String)
    (tokenAddress : Option String) : DepositResult :=
  match yellowSupportedChains.find? (fun p => p.1 = chainId) with
  | none => .failure ("Chain " ++ toString chainId ++
      " not supported. Yellow Network supports: Ethereum, Arbitrum, Base")
  | some chain =>
    match resolveToken chainId tokenAddress with
    | none => .failure ("No default USDC address for chain " ++ toString chainId ++
        ". Please provide a token address.")
    | some token =>
      match bigIntDec? amount with
      | none => .failure ("Cannot convert " ++ amount ++ " to a BigInt")
      | some n =>
        if n < 2 ^ 256 then
          let approveData := encodeApproveCall custodyAddress maxUint256
          let depositData := encodeDepositCall token n
          let formattedAmount := formatAmount n 6
          .success chainId chain.2 amount formattedAmount
            [ { step := 1
                name := "Approve USDC"
                description := "Allow Yellow Network custody contract to spend your USDC"
                toAddr := token
                data := approveData
                value := "0" }
            , { step := 2
                name := "Deposit to Yellow"
                description := "Deposit " ++ formattedAmount ++
                  " USDC into Yellow Network state channel"
                toAddr := custodyAddress
                data := depositData
                value := "0" } ]
        else .failure ("Number " ++ amount ++
          " is not in safe 256-bit unsigned integer range")

/-! ## Concrete frames and reachable worlds used in the theorems -/

/-- A successful `auth_verify` response: `authenticated: true`,
`channelId: "c1"`, `balance: "1000000"`. -/
def fAuthYes : Frame :=
  { method := none, params := none, rpcId := some 2
    result := some { challenge := none, authenticated := some true
                     rChannelId := some "c1", rBalance := some "1000000" }
    errMsg := none }

/-- A successful `auth_verify` response carrying neither `channelId` nor
`balance`. -/
def fAuthBare : Frame :=
  { method := none, params := none, rpcId := some 2
    result := some { challenge := none, authenticated := some true
                     rChannelId := none, rBalance := none }
    errMsg := none }

/-- An `auth_verify` rejection response: `result` present but
`authenticated` not truthy. -/
def rejectFrame (aut : Option Bool) (rc rb em : Option String) : Frame :=
  { method := none, params := none, rpcId := some 2
    result := some { challenge := none, authenticated := aut
                     rChannelId := rc, rBalance := rb }
    errMsg := em }

/-- An `auth_verify` response with no `result` object at all. -/
def rejectBare (em : Option String) : Frame :=
  { method := none, params := none, rpcId := some 2, result := none, errMsg := em }

/-- An `auth_challenge` response carrying a challenge string `c`. -/
def challengeFrame (c : String) : Frame :=
  { method := none, params := none, rpcId := some 1
    result := some { challenge := some c, authenticated := none
                     rChannelId := none, rBalance := none }
    errMsg := none }

/-- A malformed `auth_challenge` response: well-formed JSON whose `result`
lacks the required `challenge` field. -/
def fChallengeMissing : Frame :=
  { method := none, params := none, rpcId := some 1
    result := some { challenge := none, authenticated := none
                     rChannelId := none, rBalance := none }
    errMsg := none }

/-- A `balance_update` push carrying `balance: "2000000"`. -/
def fBalanceUpd : Frame :=
  { method := some "balance_update", params := some { pBalance := some "2000000", pChannelId := none }
    rpcId := none, result := none, errMsg := none }

/-- A `balance_update` push whose `params` object lacks the required
`balance` field: the JSON body is a method of balance_update with an
empty params object. -/
def fBalanceNoField : Frame :=
  { method := some "balance_update", params := some { pBalance := none, pChannelId := none }
    rpcId := none, result := none, errMsg := none }

/-- A `balance_update` push carrying balance `b`. -/
def pushBalanceFrame (b : Option String) : Frame :=
  { method := some "balance_update", params := some { pBalance := b, pChannelId := none }
    rpcId := none, result := none, errMsg := none }

/-- A `channel_opened` push carrying channel `c` and balance `b`. -/
def pushOpenedFrame (c b : Option String) : Frame :=
  { method := some "channel_opened", params := some { pBalance := b, pChannelId := c }
    rpcId := none, result := none, errMsg := none }

/-- A `channel_closed` push (no payload). -/
def pushClosedFrame : Frame :=
  { method := some "channel_closed", params := none
    rpcId := none, result := none, errMsg := none }

/-- A wallet-signing capability that rejects every request. -/
def rejSign : String → Except String String :=
  fun _ => .error "User rejected signature"

/-- World reached by `connect()` followed by the open event: status
`authenticating`, handshake pending on socket 0. -/
def wAuthenticating : World :=
  run okSign initWorld [.connectCall true, .openEv 0]

/-- World reached by a fully successful connect/handshake: status
`active`, channel `"c1"`, balance `"1000000"`, socket 0 open. -/
def wActive : World :=
  run okSign initWorld [.connectCall true, .openEv 0, .msgEv 0 (.ok fAuthYes)]

/-- World reached by `connect()` followed by a transport error event:
status `error`, the error reason recorded, socket 0 still referenced. -/
def wErr : World :=
  run okSign initWorld [.connectCall true, .errorEv 0]

/-- An active session state used as the concrete input of the
message-handler claims. -/
def sActiveC7 : YellowSessionState :=
  { status := .active, channelId := some "c1", balance := some "1000000"
    tokenSymbol := "USDC", tokenDecimals := 6, sessError := none }

/-- The empty transaction step, as a default for list reads. -/
def noTx : TxStep :=
  { step := 0, name := "", description := "", toAddr := "", data := "", value := "" }

/-! ## Helper lemmas -/

/-- Closing socket `i` leaves that slot closed (out-of-range reads give
the closed default). -/
theorem closeSock_getD : ∀ (l : List Sock) (i : Nat),
    ((closeSock l i).getD i noSock).closed = true := by
  intro l
  induction l with
  | nil => intro i; rfl
  | cons s t ih =>
    intro i
    cases i with
    | zero => rfl
    | succ n => exact ih n

/-- `closeSock_getD` in the `getElem?` normal form produced by `simp`. -/
theorem closeSock_getElem (l : List Sock) (i : Nat) :
    ((closeSock l i)[i]?.getD noSock).closed = true := by
  simpa using closeSock_getD l i

/-- Closing a socket does not change the number of slots. -/
theorem closeSock_length : ∀ (l : List Sock) (i : Nat),
    (closeSock l i).length = l.length := by
  intro l
  induction l with
  | nil => intro i; rfl
  | cons s t ih =>
    intro i
    cases i with
    | zero => rfl
    | succ n => exact congrArg Nat.succ (ih n)

/-- In-range reads are unaffected by elements appended on the right. -/
theorem getD_append_left : ∀ (l l2 : List Sock) (i : Nat), i < l.length →
    ((l ++ l2).getD i noSock) = l.getD i noSock := by
  intro l
  induction l with
  | nil => intro l2 i h; exact absurd h (Nat.not_lt_zero i)
  | cons s t ih =>
    intro l2 i h
    cases i with
    | zero => rfl
    | succ n => exact ih l2 n (Nat.lt_of_succ_lt_succ h)

/-- Reading just past a list returns the single appended element. -/
theorem getD_append_self : ∀ (l : List Sock) (x : Sock),
    ((l ++ [x]).getD l.length noSock) = x := by
  intro l
  induction l with
  | nil => intro x; rfl
  | cons s t ih => intro x; exact ih x

/-- The two selectors separate the encodings: no approve calldata equals
any deposit calldata, whatever the argument words. -/
theorem approve_deposit_calldata_ne (x1 y1 x2 y2 : String) :
    (selApprove ++ x1) ++ y1 ≠ (selDeposit ++ x2) ++ y2 := by
  intro h
  have h2 := congrArg String.data h
  rw [String.data_append, String.data_append, String.data_append,
    String.data_append] at h2
  simp [selApprove, selDeposit] at h2

/-- Approve calldata is never the empty string. -/
theorem approve_calldata_ne_empty (x y : String) :
    (selApprove ++ x) ++ y ≠ "" := by
  intro h
  have h2 := congrArg String.data h
  rw [String.data_append, String.data_append] at h2
  simp [selApprove] at h2

/-- Deposit calldata is never the empty string. -/
theorem deposit_calldata_ne_empty (x y : String) :
    (selDeposit ++ x) ++ y ≠ "" := by
  intro h
  have h2 := congrArg String.data h
  rw [String.data_append, String.data_append] at h2
  simp [selDeposit] at h2

/-! ## The claims -/

/-- C10: the push-message handlers are not gated on session status: for
every session state `s` (any of the five statuses), an inbound
`balance_update` overwrites `balance`, `channel_opened` overwrites
`channelId` and `balance`, and `channel_closed` clears `channelId` and
resets `balance` to `"0"` — `handleMessage` performs no status check
before applying the mutation, and `status` is never touched. -/
theorem C10_push_handlers_unguarded (s : YellowSessionState) (b c : String) :
    handleMessage (.ok (pushBalanceFrame (some b))) s
        = { s with balance := some b }
    ∧ handleMessage (.ok (pushOpenedFrame (some c) (some b))) s
        = { s with channelId := some c, balance := some b }
    ∧ handleMessage (.ok pushClosedFrame) s
        = { s with channelId := none, balance := some "0" } :=
  ⟨rfl, rfl, rfl⟩

/-- C8: from an `active` session (no handshake pending on the delivering
socket), an inbound `balance_update` push with balance `"2000000"`
updates `balance` to `"2000000"` and leaves `status` and `channelId`
(and every other session field) unchanged — no state transition. -/
theorem C8_balance_update_in_active (sign : String → Except String String)
    (w : World) (i : Nat)
    (hA : w.session.status = .active)
    (hp : authPendingAt w i = false) :
    (step sign w (.msgEv i (.ok fBalanceUpd))).session
      = { w.session with balance := some "2000000" } := by
  simp [step, hp, handleMessage, fBalanceUpd]

/-- Witness for C8 at the reachable active world. -/
theorem C8_witness :
    (step okSign wActive (.msgEv 0 (.ok fBalanceUpd))).session
      = { wActive.session with balance := some "2000000" } :=
  C8_balance_update_in_active okSign wActive 0 (by decide) (by decide)

/-- C7 (code bug): a recognized push method whose `params` object lacks
the required field is **not** dropped: on the active session
`sActiveC7` (balance `"1000000"`), the frame
`balance_update` with empty `params` silently overwrites `balance` with
the JS `undefined` value (`none`), corrupting the session state —
contradicting the requirement that such frames leave the state
completely unchanged. -/
theorem C7_missing_field_corrupts_state :
    handleMessage (.ok fBalanceNoField) sActiveC7 ≠ sActiveC7
    ∧ (handleMessage (.ok fBalanceNoField) sActiveC7).balance = none
    ∧ (handleMessage (.ok fBalanceNoField) sActiveC7).status = .active := by
  refine ⟨?_, rfl, rfl⟩
  decide

/-- C3: a handshake pending on socket `i` that receives an `auth_verify`
response with `authenticated: true`, `channelId: "c1"`,
`balance: "1000000"` reaches status `active` with exactly that channel
and balance; and a success response supplying neither field defaults
`channelId` to absent and `balance` to `"0"`. -/
theorem C3_handshake_success_adopts_result (sign : String → Except String String)
    (w : World) (i : Nat)
    (hp : authPendingAt w i = true) :
    ((step sign w (.msgEv i (.ok fAuthYes))).session.status = .active
     ∧ (step sign w (.msgEv i (.ok fAuthYes))).session.channelId = some "c1"
     ∧ (step sign w (.msgEv i (.ok fAuthYes))).session.balance = some "1000000")
    ∧ ((step sign w (.msgEv i (.ok fAuthBare))).session.status = .active
     ∧ (step sign w (.msgEv i (.ok fAuthBare))).session.channelId = none
     ∧ (step sign w (.msgEv i (.ok fAuthBare))).session.balance = some "0") := by
  refine ⟨⟨?_, ?_, ?_⟩, ⟨?_, ?_, ?_⟩⟩ <;>
    simp [step, hp, authStep, frameChallenge, authOk, settleOk, handleMessage,
      fAuthYes, fAuthBare, jsOrNull, jsOrD]

/-- Witness for C3 at the reachable authenticating world. -/
theorem C3_witness :
    (step okSign wAuthenticating (.msgEv 0 (.ok fAuthYes))).session.channelId = some "c1"
    ∧ (step okSign wAuthenticating (.msgEv 0 (.ok fAuthBare))).session.balance = some "0" :=
  ⟨(C3_handshake_success_adopts_result okSign wAuthenticating 0 (by decide)).1.2.1,
   (C3_handshake_success_adopts_result okSign wAuthenticating 0 (by decide)).2.2.2⟩

/-- C1 counterexample: at the reachable active world (channel `"c1"`,
balance `"1000000"`), invoking `connect()` — a transition out of
`active` — leaves the previous `channelId` and `balance` in the session
state while the status is `connecting`: the claim that every transition
out of `active` does not retain the previous channelId and balance is
false for the `connect()` transition. -/
theorem C1_counterexample :
    wActive.session.status = .active
    ∧ wActive.session.channelId = some "c1"
    ∧ wActive.session.balance = some "1000000"
    ∧ (step okSign wActive (.connectCall true)).session.status = .connecting
    ∧ (step okSign wActive (.connectCall true)).session.channelId = some "c1"
    ∧ (step okSign wActive (.connectCall true)).session.balance = some "1000000" := by
  decide

/-- C1 (amended): of the three transitions out of `active`, `disconnect()`
and a close event reset the whole session — `channelId` and `balance`
return to their initial values — while `connect()` moves the status to
`connecting` and clears the error but **retains** the previous
`channelId` and `balance` fields in the session state. -/
theorem C1_exit_active (sign : String → Except String String)
    (w : World) (i : Nat) (hA : w.session.status = .active) :
    (step sign w .disconnectCall).session = initialState
    ∧ (step sign w (.closeEv i)).session = initialState
    ∧ (step sign w (.connectCall true)).session
        = { w.session with status := .connecting, sessError := none } := by
  refine ⟨rfl, ?_, rfl⟩
  simp [step, hA]

/-- Witness for C1 at the reachable active world. -/
theorem C1_witness :
    (step okSign wActive .disconnectCall).session = initialState
    ∧ (step okSign wActive (.closeEv 0)).session = initialState :=
  ⟨(C1_exit_active okSign wActive 0 (by decide)).1,
   (C1_exit_active okSign wActive 0 (by decide)).2.1⟩

/-- C4 counterexample: at the reachable error world (transport error
recorded), `disconnect()` resets the session to the full initial state:
the recorded `error` status and reason are **not** retained — the claim
that `disconnect()` from `error` leaves the error-visible fields
unchanged is false. -/
theorem C4_counterexample :
    wErr.session.status = .error
    ∧ wErr.session.sessError = some "WebSocket connection error"
    ∧ (step okSign wErr .disconnectCall).session = initialState := by
  decide

/-- C4 (amended): `disconnect()` from **any** status — `error` included —
yields the full initial state (disconnected, no channel, balance `"0"`,
no error), clears the connection reference, closes the referenced
connection and cancels the reconnection timer; the recorded error is
retained only across transport close events (`onclose` keeps an `error`
session unchanged), not across an explicit `disconnect()`. -/
theorem C4_disconnect_resets (sign : String → Except String String)
    (w : World) (i : Nat) (hw : w.wsRef = some i) :
    (step sign w .disconnectCall).session = initialState
    ∧ (step sign w .disconnectCall).wsRef = none
    ∧ (step sign w .disconnectCall).reconnectTimer = false
    ∧ ((step sign w .disconnectCall).socks.getD i noSock).closed = true
    ∧ (w.session.status = .error → (step sign w (.closeEv i)).session = w.session) := by
  refine ⟨rfl, rfl, rfl, ?_, ?_⟩
  · have h1 : (step sign w .disconnectCall).socks = closeSock w.socks i := by
      simp [step, hw]
    rw [h1]
    exact closeSock_getD w.socks i
  · intro hE
    simp [step, hE]

/-- Witness for C4 at the reachable error world. -/
theorem C4_witness :
    (step okSign wErr .disconnectCall).session = initialState
    ∧ ((step okSign wErr .disconnectCall).socks.getD 0 noSock).closed = true
    ∧ (step okSign wErr (.closeEv 0)).session = wErr.session :=
  ⟨(C4_disconnect_resets okSign wErr 0 (by decide)).1,
   (C4_disconnect_resets okSign wErr 0 (by decide)).2.2.2.1,
   (C4_disconnect_resets okSign wErr 0 (by decide)).2.2.2.2 (by decide)⟩

/-- C5 (code bug): `disconnect()` during an in-flight handshake resets
the session to the initial state, but the 30-second handshake timer is
not cancelled; when it fires, the stale settlement moves the session
from the disconnected initial state to `error` with reason
`"Authentication timeout"` — contradicting the claim that every
eventual settlement of the superseded handshake has no effect and the
session remains the disconnected initial state. -/
theorem C5_stale_timeout_after_disconnect :
    (run okSign initWorld [.connectCall true, .openEv 0, .disconnectCall]).session
      = initialState
    ∧ authPendingAt (run okSign initWorld [.connectCall true, .openEv 0, .disconnectCall]) 0
      = true
    ∧ (run okSign initWorld [.connectCall true, .openEv 0, .disconnectCall, .timeoutEv 0]).session
      = { initialState with status := .error, sessError := some "Authentication timeout" } := by
  decide

/-- C2 counterexample: a malformed (well-formed JSON, required field
missing) `auth_challenge` response does **not** produce a parse error:
delivered to the reachable authenticating world, the frame is silently
ignored — the session stays `authenticating` with no error recorded and
the handshake stays pending — and the handshake can then only settle
through the 30-second timer, whose reason is `"Authentication timeout"`,
not a parse error.  This refutes the failure-mode attribution
"malformed response body missing required fields → parse error". -/
theorem C2_counterexample :
    (step okSign wAuthenticating (.msgEv 0 (.ok fChallengeMissing))).session.status
      = .authenticating
    ∧ (step okSign wAuthenticating (.msgEv 0 (.ok fChallengeMissing))).session.sessError = none
    ∧ authPendingAt (step okSign wAuthenticating (.msgEv 0 (.ok fChallengeMissing))) 0 = true
    ∧ (step okSign (step okSign wAuthenticating (.msgEv 0 (.ok fChallengeMissing)))
        (.timeoutEv 0)).session.sessError = some "Authentication timeout" := by
  decide

/-- C2 (amended): every settling handshake failure drives the session to
status `error` with the specific failure reason and closes the
connection the handshake ran over, and the settlement step never yields
`active`: (a) the 30-second timeout → `"Authentication timeout"`;
(b) a response `JSON.parse` rejects → the parse-error message;
(c) an explicit server rejection (`auth_verify` response whose
`authenticated` is not truthy, with or without a `result` object) → the
server-supplied `error.message`, defaulting to
`"Authentication rejected"`; (d) the signing capability rejecting or
throwing → the signing failure message.  A well-formed response missing
its required field settles nothing: it is ignored (session and sockets
unchanged, handshake still pending), so a missing-field body surfaces
later as (a) or (c), not as a parse error. -/
theorem C2_handshake_failures (sign : String → Except String String)
    (w : World) (i : Nat) (c se e : String) (aut : Option Bool) (rc rb em : Option String)
    (hp : authPendingAt w i = true)
    (hc : c ≠ "")
    (hsign : sign c = .error se)
    (haut : aut ≠ some true) :
    ((step sign w (.timeoutEv i)).session.status = .error
     ∧ (step sign w (.timeoutEv i)).session.sessError = some "Authentication timeout"
     ∧ ((step sign w (.timeoutEv i)).socks.getD i noSock).closed = true)
    ∧ ((step sign w (.msgEv i (.invalid e))).session.status = .error
     ∧ (step sign w (.msgEv i (.invalid e))).session.sessError = some e
     ∧ ((step sign w (.msgEv i (.invalid e))).socks.getD i noSock).closed = true)
    ∧ ((step sign w (.msgEv i (.ok (rejectFrame aut rc rb em)))).session.status = .error
     ∧ (step sign w (.msgEv i (.ok (rejectFrame aut rc rb em)))).session.sessError
         = some (jsOrD "Authentication rejected" em)
     ∧ ((step sign w (.msgEv i (.ok (rejectFrame aut rc rb em)))).socks.getD i noSock).closed
         = true)
    ∧ ((step sign w (.msgEv i (.ok (rejectBare em)))).session.status = .error
     ∧ (step sign w (.msgEv i (.ok (rejectBare em)))).session.sessError
         = some (jsOrD "Authentication rejected" em)
     ∧ ((step sign w (.msgEv i (.ok (rejectBare em)))).socks.getD i noSock).closed = true)
    ∧ ((step sign w (.msgEv i (.ok (challengeFrame c)))).session.status = .error
     ∧ (step sign w (.msgEv i (.ok (challengeFrame c)))).session.sessError = some se
     ∧ ((step sign w (.msgEv i (.ok (challengeFrame c)))).socks.getD i noSock).closed = true)
    ∧ ((step sign w (.msgEv i (.ok fChallengeMissing))).session = w.session
     ∧ (step sign w (.msgEv i (.ok fChallengeMissing))).socks = w.socks) := by
  refine ⟨⟨?_, ?_, ?_⟩, ⟨?_, ?_, ?_⟩, ⟨?_, ?_, ?_⟩, ⟨?_, ?_, ?_⟩, ⟨?_, ?_, ?_⟩, ⟨?_, ?_⟩⟩ <;>
    simp [step, hp, authStep, settleFail, handleMessage, frameChallenge, authOk,
      rejectFrame, rejectBare, challengeFrame, fChallengeMissing, hc, hsign, haut,
      closeSock_getElem, jsOrD]

/-- Witness for C2 at the reachable authenticating world, with a signer
that rejects. -/
theorem C2_witness :
    (step rejSign wAuthenticating (.timeoutEv 0)).session.sessError
      = some "Authentication timeout"
    ∧ (step rejSign wAuthenticating (.msgEv 0 (.invalid "Unexpected token"))).session.sessError
      = some "Unexpected token"
    ∧ (step rejSign wAuthenticating
        (.msgEv 0 (.ok (rejectFrame (some false) none none none)))).session.sessError
      = some "Authentication rejected"
    ∧ (step rejSign wAuthenticating (.msgEv 0 (.ok (challengeFrame "ch1")))).session.sessError
      = some "User rejected signature" :=
  ⟨(C2_handshake_failures rejSign wAuthenticating 0 "ch1" "User rejected signature"
      "Unexpected token" (some false) none none none (by decide) (by decide) rfl
      (by decide)).1.2.1,
   (C2_handshake_failures rejSign wAuthenticating 0 "ch1" "User rejected signature"
      "Unexpected token" (some false) none none none (by decide) (by decide) rfl
      (by decide)).2.1.2.1,
   (C2_handshake_failures rejSign wAuthenticating 0 "ch1" "User rejected signature"
      "Unexpected token" (some false) none none none (by decide) (by decide) rfl
      (by decide)).2.2.1.2.1,
   (C2_handshake_failures rejSign wAuthenticating 0 "ch1" "User rejected signature"
      "Unexpected token" (some false) none none none (by decide) (by decide) rfl
      (by decide)).2.2.2.2.1.2.1⟩

/-- C6 counterexample: a realizable four-event trace under which **two**
connections are open at the same instant, refuting "at most one
connection is open at any instant".  The trace: `connect()` creates
socket 0; a second `connect()` closes socket 0 and creates socket 1;
the close event of socket 0 then fires late and its handler nulls the
connection reference unconditionally — orphaning the still-open
socket 1; a third `connect()` finds no referenced connection, closes
nothing, and creates socket 2, leaving sockets 1 and 2 both open. -/
theorem C6_counterexample :
    openCount (run okSign initWorld
      [.connectCall true, .connectCall true, .closeEv 0, .connectCall true]) = 2 := by
  decide

/-- C6 (amended): `connect()` closes the currently referenced connection
before creating and referencing a fresh open one; `disconnect()` closes
the referenced connection, clears the reference and cancels the
reconnection timer; a close event closes its socket and nulls the
reference.  The `onError` transition into `error`, however, releases
nothing: sockets, reference and timer are all left untouched.  (And, by
the counterexample, at most one **referenced** connection exists, but
not at most one open connection.) -/
theorem C6_connection_release (sign : String → Except String String)
    (w : World) (i j : Nat) (hw : w.wsRef = some i) (hi : i < w.socks.length) :
    (((step sign w (.connectCall true)).socks.getD i noSock).closed = true
     ∧ (step sign w (.connectCall true)).wsRef = some w.socks.length
     ∧ (step sign w (.connectCall true)).socks.getD w.socks.length noSock
         = { closed := false, authPending := false })
    ∧ (((step sign w .disconnectCall).socks.getD i noSock).closed = true
     ∧ (step sign w .disconnectCall).wsRef = none
     ∧ (step sign w .disconnectCall).reconnectTimer = false)
    ∧ (((step sign w (.closeEv j)).socks.getD j noSock).closed = true
     ∧ (step sign w (.closeEv j)).wsRef = none)
    ∧ ((step sign w (.errorEv j)).socks = w.socks
     ∧ (step sign w (.errorEv j)).wsRef = w.wsRef
     ∧ (step sign w (.errorEv j)).reconnectTimer = w.reconnectTimer
     ∧ (step sign w (.errorEv j)).session.status = .error) := by
  have hsocks : (step sign w (.connectCall true)).socks
      = closeSock w.socks i ++ [{ closed := false, authPending := false }] := by
    simp [step, hw]
  have href : (step sign w (.connectCall true)).wsRef
      = some (closeSock w.socks i).length := by
    simp [step, hw]
  have hdis : (step sign w .disconnectCall).socks = closeSock w.socks i := by
    simp [step, hw]
  refine ⟨⟨?_, ?_, ?_⟩, ⟨?_, rfl, rfl⟩, ⟨?_, rfl⟩, rfl, rfl, rfl, rfl⟩
  · rw [hsocks]
    have hlen : i < (closeSock w.socks i).length := by
      rw [closeSock_length]
      exact hi
    rw [getD_append_left _ _ _ hlen]
    exact closeSock_getD w.socks i
  · rw [href, closeSock_length]
  · rw [hsocks]
    conv_lhs => rw [← closeSock_length w.socks i]
    exact getD_append_self _ _
  · rw [hdis]
    exact closeSock_getD w.socks i
  · exact closeSock_getD w.socks j

/-- Witness for C6 at the reachable active world. -/
theorem C6_witness :
    ((step okSign wActive (.connectCall true)).socks.getD 0 noSock).closed = true
    ∧ (step okSign wActive .disconnectCall).wsRef = none
    ∧ (step okSign wActive (.errorEv 0)).socks = wActive.socks :=
  ⟨(C6_connection_release okSign wActive 0 0 (by decide) (by decide)).1.1,
   (C6_connection_release okSign wActive 0 0 (by decide) (by decide)).2.1.2.1,
   (C6_connection_release okSign wActive 0 0 (by decide) (by decide)).2.2.2.1⟩

/-- Descriptions of the deposit step are never empty. -/
theorem deposit_description_ne_empty (x y : String) :
    ("Deposit " ++ x) ++ y ≠ "" := by
  intro h
  have h2 := congrArg String.data h
  rw [String.data_append, String.data_append] at h2
  simp at h2

/-- C9: for every supported chain (1, 42161, 8453) with a resolvable
token address (explicit JS-truthy parameter or the per-chain USDC
default) and a convertible in-range amount, `buildYellowDepositTx`
succeeds and returns exactly two calldata operations in order: step 1
an allowance approval of the unconditional maximum (`maxUint256`) for
the custody contract, addressed to the token; step 2 a deposit call
with the exact requested amount, addressed to the custody contract;
both calldata strings non-empty and distinct, and both steps carrying a
non-empty human-readable description and their step index. -/
theorem C9_build_deposit (chainId : Nat) (amount : String) (tokenAddress : Option String)
    (n : Nat) (tok : String)
    (hc : chainId = 1 ∨ chainId = 42161 ∨ chainId = 8453)
    (hn : bigIntDec? amount = some n)
    (hlt : n < 2 ^ 256)
    (ht : resolveToken chainId tokenAddress = some tok) :
    (buildYellowDepositTx chainId amount tokenAddress).isSuccess = true
    ∧ (buildYellowDepositTx chainId amount tokenAddress).txs.length = 2
    ∧ ((buildYellowDepositTx chainId amount tokenAddress).txs.getD 0 noTx).step = 1
    ∧ ((buildYellowDepositTx chainId amount tokenAddress).txs.getD 0 noTx).toAddr = tok
    ∧ ((buildYellowDepositTx chainId amount tokenAddress).txs.getD 0 noTx).data
        = encodeApproveCall custodyAddress maxUint256
    ∧ ((buildYellowDepositTx chainId amount tokenAddress).txs.getD 1 noTx).step = 2
    ∧ ((buildYellowDepositTx chainId amount tokenAddress).txs.getD 1 noTx).toAddr
        = custodyAddress
    ∧ ((buildYellowDepositTx chainId amount tokenAddress).txs.getD 1 noTx).data
        = encodeDepositCall tok n
    ∧ ((buildYellowDepositTx chainId amount tokenAddress).txs.getD 0 noTx).data ≠ ""
    ∧ ((buildYellowDepositTx chainId amount tokenAddress).txs.getD 1 noTx).data ≠ ""
    ∧ ((buildYellowDepositTx chainId amount tokenAddress).txs.getD 0 noTx).data
        ≠ ((buildYellowDepositTx chainId amount tokenAddress).txs.getD 1 noTx).data
    ∧ ((buildYellowDepositTx chainId amount tokenAddress).txs.getD 0 noTx).description ≠ ""
    ∧ ((buildYellowDepositTx chainId amount tokenAddress).txs.getD 1 noTx).description
        ≠ "" := by
  have hb : (buildYellowDepositTx chainId amount tokenAddress).txs
      = [ { step := 1
            name := "Approve USDC"
            description := "Allow Yellow Network custody contract to spend your USDC"
            toAddr := tok
            data := encodeApproveCall custodyAddress maxUint256
            value := "0" }
        , { step := 2
            name := "Deposit to Yellow"
            description := "Deposit " ++ formatAmount n 6 ++
              " USDC into Yellow Network state channel"
            toAddr := custodyAddress
            data := encodeDepositCall tok n
            value := "0" } ]
      ∧ (buildYellowDepositTx chainId amount tokenAddress).isSuccess = true := by
    have hlt2 : n <
        115792089237316195423570985008687907853269984665640564039457584007913129639936 :=
      hlt
    rcases hc with rfl | rfl | rfl <;>
      simp [buildYellowDepositTx, yellowSupportedChains, ht, hn, hlt2,
        DepositResult.txs, DepositResult.isSuccess]
  rw [hb.1]
  refine ⟨hb.2, rfl, rfl, rfl, rfl, rfl, rfl, rfl, ?_, ?_, ?_, ?_, ?_⟩
  · exact approve_calldata_ne_empty _ _
  · exact deposit_calldata_ne_empty _ _
  · exact approve_deposit_calldata_ne _ _ _ _
  · show ("Allow Yellow Network custody contract to spend your USDC" : String) ≠ ""
    decide
  · exact deposit_description_ne_empty _ _

/-- Witness for C9: a deposit of 1 USDC on Ethereum with the default
token. -/
theorem C9_witness :
    (buildYellowDepositTx 1 "1000000" none).isSuccess = true
    ∧ ((buildYellowDepositTx 1 "1000000" none).txs.getD 0 noTx).data
        ≠ ((buildYellowDepositTx 1 "1000000" none).txs.getD 1 noTx).data :=
  ⟨(C9_build_deposit 1 "1000000" none 1000000
      "0xA0b86991c6218b36c1d19D4a2e9Eb0cE3606eB48" (Or.inl rfl) (by decide) (by decide)
      rfl).1,
   (C9_build_deposit 1 "1000000" none 1000000
      "0xA0b86991c6218b36c1d19D4a2e9Eb0cE3606eB48" (Or.inl rfl) (by decide) (by decide)
      rfl).2.2.2.2.2.2.2.2.2.2.1⟩

end Omnistrat
